/-
Verification of the Tool-Mediation and Request Orchestration Engine
(`source/` package and the terminal blocklist of `mcp_servers/`).

Each section embeds one subsystem of the Python source as executable Lean
definitions, staying as close to the original control flow as the language
allows.  External collaborators (the `mcp` client library, `numpy`
floating-point arithmetic, the PTY library, the event loop) enter the
definitions as explicit parameters or as outcome data, never as hidden
state.  Machine effects (killing a process, writing to a PTY) are recorded
as explicit effect lists.

Section layout:
  1. Python string primitives (strip/split/lower, UTF-8 bytes)
  2. SHA-256 (hashlib.sha256, used by services/approval_history.py)
  3. Approval history store (services/approval_history.py)
  4. Assoc-list model of Python dicts
  5. MCP tool manager (mcp_integration/manager.py)
  6. Tool retriever (mcp_integration/retriever.py)
  7. Result truncation (mcp_integration/handlers.py, terminal_executor.py)
  8. Tool-call loop round counting (mcp_integration/handlers.py)
  9. Terminal blocklist with a regex interpreter
     (mcp_servers/servers/terminal/blocklist.py)
 10. Terminal service state machine (services/terminal.py) and the
     stop_streaming websocket handler (api/handlers.py)
-/
import Mathlib

namespace Clueless

/-! ### 1. Python string primitives

Python `str` is a sequence of code points; we model it by `String` /
`List Char`.  `str.split()` with no argument splits on runs of whitespace
and drops empty pieces; `str.strip()` removes leading and trailing
whitespace.  Python's ASCII whitespace set is ` \t\n\r\x0b\x0c`; the
sources only ever feed ASCII command text through these helpers, so the
extra Unicode spaces Python would also accept are not modelled. -/

/-- Python's whitespace test (`str.isspace` / `\s`), ASCII fragment. -/
def pyIsSpace (c : Char) : Bool :=
  c == ' ' || c == '\t' || c == '\n' || c == '\r' || c == '\x0b' || c == '\x0c'

/-- Tokenizer behind `pySplit`: `acc` holds the current token reversed. -/
def pySplitGo (acc : List Char) : List Char → List String
  | [] => if acc = [] then [] else [⟨acc.reverse⟩]
  | c :: cs =>
    if pyIsSpace c then
      if acc = [] then pySplitGo [] cs else (⟨acc.reverse⟩ : String) :: pySplitGo [] cs
    else pySplitGo (c :: acc) cs

/-- `str.split()` with no separator: split on whitespace runs, no empties. -/
def pySplit (s : String) : List String := pySplitGo [] s.data

/-- Drop leading whitespace characters. -/
def pyDropLeading : List Char → List Char
  | [] => []
  | c :: cs => if pyIsSpace c then pyDropLeading cs else c :: cs

/-- `str.strip()`: remove leading and trailing whitespace. -/
def pyStrip (s : String) : String :=
  ⟨(pyDropLeading (pyDropLeading s.data.reverse).reverse)⟩

/-- `str.lower()` (ASCII fragment, the only case the blocklist exercises). -/
def pyLower (s : String) : String := ⟨s.data.map Char.toLower⟩

/-- UTF-8 encoding of one code point (`str.encode("utf-8")`). -/
def utf8Bytes (c : Char) : List Nat :=
  let n := c.toNat
  if n < 0x80 then [n]
  else if n < 0x800 then
    [0xC0 ||| (n >>> 6), 0x80 ||| (n &&& 0x3F)]
  else if n < 0x10000 then
    [0xE0 ||| (n >>> 12), 0x80 ||| ((n >>> 6) &&& 0x3F), 0x80 ||| (n &&& 0x3F)]
  else
    [0xF0 ||| (n >>> 18), 0x80 ||| ((n >>> 12) &&& 0x3F),
     0x80 ||| ((n >>> 6) &&& 0x3F), 0x80 ||| (n &&& 0x3F)]

/-- UTF-8 bytes of a whole string. -/
def strUtf8 (s : String) : List Nat := (s.data.map utf8Bytes).flatten

/-! ### 2. SHA-256

A byte-list implementation of FIPS 180-4 SHA-256, the algorithm behind
`hashlib.sha256` used by `approval_history._compute_hash`.  Words are
`Nat`s reduced mod 2^32. -/

/-- Truncate to a 32-bit word. -/
def w32 (n : Nat) : Nat := n % 4294967296

/-- 32-bit right rotation. -/
def rotr (k x : Nat) : Nat := w32 ((x >>> k) ||| (x <<< (32 - k)))

/-- SHA-256 round constants. -/
def shaK : List Nat :=
  [1116352408, 1899447441, 3049323471, 3921009573, 961987163, 1508970993,
   2453635748, 2870763221, 3624381080, 310598401, 607225278, 1426881987,
   1925078388, 2162078206, 2614888103, 3248222580, 3835390401, 4022224774,
   264347078, 604807628, 770255983, 1249150122, 1555081692, 1996064986,
   2554220882, 2821834349, 2952996808, 3210313671, 3336571891, 3584528711,
   113926993, 338241895, 666307205, 773529912, 1294757372, 1396182291,
   1695183700, 1986661051, 2177026350, 2456956037, 2730485921, 2820302411,
   3259730800, 3345764771, 3516065817, 3600352804, 4094571909, 275423344,
   430227734, 506948616, 659060556, 883997877, 958139571, 1322822218,
   1537002063, 1747873779, 1955562222, 2024104815, 2227730452, 2361852424,
   2428436474, 2756734187, 3204031479, 3329325298]

/-- Big-endian byte decomposition, `k` bytes. -/
def toBytesBE : Nat → Nat → List Nat
  | 0, _ => []
  | k + 1, n => toBytesBE k (n >>> 8) ++ [n % 256]

/-- SHA-256 padding: append `0x80`, zeros, and the 64-bit bit length. -/
def shaPad (msg : List Nat) : List Nat :=
  let len := msg.length
  let zeros := (64 - ((len + 9) % 64)) % 64
  msg ++ [0x80] ++ List.replicate zeros 0 ++ toBytesBE 8 (8 * len)

/-- Split a byte list into 64-byte blocks (`fuel` bounds the recursion;
`chunks64` supplies the list length, which always suffices because every
step consumes at least one element). -/
def chunks64Go : Nat → List Nat → List (List Nat)
  | 0, _ => []
  | _ + 1, [] => []
  | fuel + 1, c :: cs => (c :: cs).take 64 :: chunks64Go fuel ((c :: cs).drop 64)

/-- Split a byte list into 64-byte blocks. -/
def chunks64 (l : List Nat) : List (List Nat) := chunks64Go l.length l

/-- The `i`-th big-endian 32-bit word of a 64-byte block. -/
def blockWord (block : List Nat) (i : Nat) : Nat :=
  (block.getD (4 * i) 0) <<< 24 ||| (block.getD (4 * i + 1) 0) <<< 16 |||
  (block.getD (4 * i + 2) 0) <<< 8 ||| block.getD (4 * i + 3) 0

/-- Message schedule: 16 block words extended to 64. -/
def shaSchedule (block : List Nat) : List Nat :=
  let w0 := (List.range 16).map (blockWord block)
  (List.range 48).foldl
    (fun w i =>
      let a := w.getD (i + 1) 0
      let b := w.getD (i + 14) 0
      let s0 := rotr 7 a ^^^ rotr 18 a ^^^ (a >>> 3)
      let s1 := rotr 17 b ^^^ rotr 19 b ^^^ (b >>> 10)
      w ++ [w32 (w.getD i 0 + s0 + w.getD (i + 9) 0 + s1)])
    w0

/-- One SHA-256 compression step over the 8-word state. -/
def shaCompress (hs : List Nat) (block : List Nat) : List Nat :=
  let ws := shaSchedule block
  let st := (List.range 64).foldl
    (fun st i =>
      match st with
      | [a, b, c, d, e, f, g, h] =>
        let s1 := rotr 6 e ^^^ rotr 11 e ^^^ rotr 25 e
        let ch := (e &&& f) ^^^ ((4294967295 ^^^ e) &&& g)
        let t1 := w32 (h + s1 + ch + shaK.getD i 0 + ws.getD i 0)
        let s0 := rotr 2 a ^^^ rotr 13 a ^^^ rotr 22 a
        let mj := (a &&& b) ^^^ (a &&& c) ^^^ (b &&& c)
        let t2 := w32 (s0 + mj)
        [w32 (t1 + t2), a, b, c, w32 (d + t1), e, f, g]
      | other => other)
    hs
  (List.zip hs st).map (fun p => w32 (p.1 + p.2))

/-- SHA-256 initial hash state. -/
def shaInit : List Nat :=
  [1779033703, 3144134277, 1013904242, 2773480762, 1359893119, 2600822924,
   528734635, 1541459225]

/-- SHA-256 digest as 32 bytes. -/
def sha256Bytes (msg : List Nat) : List Nat :=
  ((chunks64 (shaPad msg)).foldl shaCompress shaInit).map (toBytesBE 4) |>.flatten

/-- Hexadecimal digit characters. -/
def hexDigit (n : Nat) : Char := "0123456789abcdef".data.getD n 'x'

/-- `hexdigest()`: lowercase hex of the digest bytes. -/
def sha256Hex (msg : List Nat) : List Char :=
  (sha256Bytes msg |>.map (fun b => [hexDigit (b / 16), hexDigit (b % 16)])).flatten

/-! ### 3. Approval history store (`services/approval_history.py`)

The JSON file state is its `approvals` list; `approved_at` timestamps are
supplied as a parameter in place of `time.time()`. -/

/-- One entry of `exec-approvals.json`'s `approvals` list. -/
structure ApprovalEntry where
  hash : String
  command_signature : String
  approved_at : Nat
deriving DecidableEq, Repr

/-- `_compute_hash`: `sha256(sig.encode("utf-8")).hexdigest()[:16]`. -/
def compute_hash (command_signature : String) : String :=
  ⟨(sha256Hex (strUtf8 command_signature)).take 16⟩

/-- The package-manager first tokens that keep two tokens in a signature. -/
def twoTokenPrefixes : List String :=
  ["npm", "npx", "pip", "git", "docker", "cargo", "uv"]

/-- `_normalize_command`: first token, or first two for package managers;
the original command when it has no tokens. -/
def normalize_command (command : String) : String :=
  let parts := pySplit (pyStrip command)
  match parts with
  | [] => command
  | p0 :: rest =>
    if rest.length + 1 ≥ 2 && twoTokenPrefixes.contains p0 then
      p0 ++ " " ++ (rest.headD "")
    else p0

/-- `is_command_approved` over an explicit store state. -/
def is_command_approved (store : List ApprovalEntry) (command : String) : Bool :=
  let signature := normalize_command command
  let sigHash := compute_hash signature
  store.any (fun a => a.hash == sigHash)

/-- `remember_approval` over an explicit store state; `now` models
`time.time()`. -/
def remember_approval (command : String) (now : Nat)
    (store : List ApprovalEntry) : List ApprovalEntry :=
  let signature := normalize_command command
  let sigHash := compute_hash signature
  if store.any (fun a => a.hash == sigHash) then store
  else store ++ [{ hash := sigHash, command_signature := signature,
                   approved_at := now }]

/-! ### 4. Assoc-list model of Python dicts

Python dicts keep insertion order; assignment replaces the value of an
existing key in place, or appends a new key.  An association list with
those update semantics models every dict the claims touch. -/

/-- Dict assignment `d[k] = v`. -/
def dictSet {α : Type} : List (String × α) → String → α → List (String × α)
  | [], k, v => [(k, v)]
  | (k', v') :: rest, k, v =>
    if k' == k then (k, v) :: rest else (k', v') :: dictSet rest k v

/-- Dict lookup `d.get(k)`. -/
def dictGet {α : Type} (d : List (String × α)) (k : String) : Option α :=
  (d.find? (fun p => p.1 == k)).map Prod.snd

/-- Dict removal `d.pop(k, None)`. -/
def dictRemove {α : Type} (d : List (String × α)) (k : String) :
    List (String × α) :=
  d.filter (fun p => p.1 ≠ k)

/-! ### 5. MCP tool manager (`mcp_integration/manager.py`)

The registry maps tool names to the owning server (`session` handles are
owned one-to-one by servers, so the server name stands for the entry).
Tool definitions carry a name, a description, and the JSON input schema
(kept as an opaque string).  `_ollama_tools` and `_raw_tools` wrap the
same three fields in different shapes; both append one entry per
discovered tool. -/

/-- Neutral tool shape `{name, description, input_schema}`. -/
structure ToolDef where
  name : String
  description : String
  input_schema : String
deriving DecidableEq, Repr

/-- The manager state the tool claims concern: `_tool_registry`,
`_ollama_tools`, `_raw_tools`, `_connections` (names only). -/
structure McpState where
  tool_registry : List (String × String)
  ollama_tools : List ToolDef
  raw_tools : List ToolDef
  connections : List String
deriving DecidableEq, Repr

/-- The empty manager (`McpToolManager.__init__`). -/
def initMcpState : McpState :=
  { tool_registry := [], ollama_tools := [], raw_tools := [], connections := [] }

/-- The discovery loop of `connect_server` (manager.py lines 100-127):
for each reported tool, assign the registry entry and append to both
canonical lists.  No duplicate check of any kind is performed. -/
def register_tools (server_name : String) (tools_reported : List ToolDef)
    (st : McpState) : McpState :=
  tools_reported.foldl
    (fun st tool =>
      { st with
        tool_registry := dictSet st.tool_registry tool.name server_name,
        ollama_tools := st.ollama_tools ++ [tool],
        raw_tools := st.raw_tools ++ [tool] })
    st

/-- `connect_server` after a successful handshake: record the connection,
then run tool discovery.  (`stdio_ctx`/`session_ctx` handles are outside
the state the claims concern.) -/
def connect_server (server_name : String) (reported : List ToolDef)
    (st : McpState) : McpState :=
  register_tools server_name reported
    { st with connections :=
        if st.connections.contains server_name then st.connections
        else st.connections ++ [server_name] }

/-- `get_tool_server_name`: owning server, or `"unknown"`. -/
def get_tool_server_name (st : McpState) (tool_name : String) : String :=
  (dictGet st.tool_registry tool_name).getD "unknown"

/-- The outcome of the awaited `session.call_tool` JSON-RPC request, as
seen through `asyncio.wait_for(..., timeout=180.0)`: the server answered
with content blocks, the 180 s ceiling expired, or the channel raised. -/
inductive ChannelOutcome where
  | success (blocks : List (Option String × String))
  | timeout
  | raised (exc : String)
deriving DecidableEq, Repr

/-- The hard ceiling (seconds) on one `call_tool` JSON-RPC request. -/
def CALL_TOOL_TIMEOUT : Nat := 180

/-- A content block's textual rendering: the first component is the
`text` attribute when the block has one, the second is its `str(block)`
rendering used otherwise. -/
def blockText : Option String × String → String
  | (some t, _) => t
  | (none, r) => r

/-- `McpToolManager.call_tool` (manager.py lines 140-165).  `Except.error`
models an exception escaping the method; `channel` is the outcome of the
underlying JSON-RPC request for this invocation. -/
def call_tool (st : McpState) (tool_name : String)
    (channel : ChannelOutcome) :
    Except String String :=
  match dictGet st.tool_registry tool_name with
  | none => .ok ("Error: Unknown tool '" ++ tool_name ++ "'")
  | some server =>
    match channel with
    | .timeout =>
        .ok ("Error: Tool '" ++ tool_name ++ "' (server '" ++ server ++
             "') timed out after 180s")
    | .raised exc => .error exc
    | .success blocks =>
        let output_parts := blocks.map blockText
        .ok (if output_parts.isEmpty then "Tool returned no output."
             else String.intercalate "\n" output_parts)

/-! ### 6. Tool retriever (`mcp_integration/retriever.py`)

Embeddings are numpy float vectors; we carry them as rational lists and
abstract the floating-point cosine quotient `np.dot(q,t)/(|q||t|)` as the
parameter `simf` (its value is only consulted when both norms are
nonzero, exactly as in the source).  The backend probe result is the
`_embedding_model_type` string. -/

/-- `np.linalg.norm(v) == 0` test: a float norm is zero exactly when every
component is zero. -/
def normZero (v : List ℚ) : Bool := v.all (fun x => x == 0)

/-- `ToolRetriever.retrieve_tools` (retriever.py lines 157-219).
`tool_embeddings` is the `_tool_embeddings` cache in dict order;
`simf` is the floating-point cosine similarity. -/
def retrieve_tools (embedding_model_type : String)
    (tool_embeddings : List (String × List ℚ))
    (simf : List ℚ → List ℚ → ℚ) (query_embedding : List ℚ)
    (query : String) (all_tools : List ToolDef) (always_on : List String)
    (top_k : Int) : List ToolDef :=
  let selected₀ := always_on
  let selected :=
    if top_k > 0 && embedding_model_type != "none" && pyStrip query != "" &&
        !tool_embeddings.isEmpty then
      let scores := tool_embeddings.filterMap
        (fun (ne : String × List ℚ) =>
          if selected₀.contains ne.1 then none
          else if ne.2.length ≠ query_embedding.length then none
          else if normZero query_embedding || normZero ne.2 then
            some ((0 : ℚ), ne.1)
          else some (simf query_embedding ne.2, ne.1))
      let sorted := scores.mergeSort (fun a b => decide (b.1 ≤ a.1))
      selected₀ ++ (sorted.take top_k.toNat).map Prod.snd
    else selected₀
  all_tools.filter (fun t => selected.contains t.name)

/-! ### 7. Result truncation (`mcp_integration/handlers.py` lines 212-221,
`cloud_tool_handlers._truncate_result`, and the `full_output` cap of
`terminal_executor._handle_run_command`).  Characters model Python string
items. -/

/-- The marker appended to oversize tool results. -/
def TRUNCATION_MARKER : List Char := "... [Output truncated due to length]".data

/-- The tool-result truncation applied before broadcast, recording, and
history append: `result_str[:100000] + marker` when over 100 000. -/
def truncate_result (s : List Char) : List Char :=
  if s.length > 100000 then s.take 100000 ++ TRUNCATION_MARKER else s

/-- The persisted `full_output` cap: `output=result_str[:50000]`. -/
def db_output_cap (s : List Char) : List Char := s.take 50000

/-! ### 8. Tool-call loop round counting (`mcp_integration/handlers.py`
lines 140-270 and `config.MAX_MCP_TOOL_ROUNDS`)

One adapter response per round: `responses r` is the tool-call list of the
response the round-`r` follow-up `chat` produced (`none` when that call
raised, which breaks the loop); `initial` is the detection response's
tool-call list.  `stop r` says whether `app_state.stop_streaming` is
observed set during round `r+1`'s checks. -/

/-- `config.MAX_MCP_TOOL_ROUNDS`. -/
def MAX_MCP_TOOL_ROUNDS : Nat := 30

/-- A tool call carried by an adapter response: function name and
serialized arguments. -/
structure ToolCallReq where
  name : String
  args : String
deriving DecidableEq, Repr

/-- The `while response.message.tool_calls and rounds < MAX_MCP_TOOL_ROUNDS`
loop, reduced to its round counter; returns the final value of `rounds`. -/
def tool_loop_go (responses : Nat → Option (List ToolCallReq))
    (stop : Nat → Bool) (rounds : Nat) (current : List ToolCallReq) : Nat :=
  if current ≠ [] ∧ rounds < MAX_MCP_TOOL_ROUNDS then
    let r := rounds + 1
    if stop rounds then r
    else
      match responses rounds with
      | none => r
      | some next => tool_loop_go responses stop r next
  else rounds
termination_by MAX_MCP_TOOL_ROUNDS - rounds

/-- Rounds executed by `handle_mcp_tool_calls` once the detection response
is in hand. -/
def tool_loop_rounds (responses : Nat → Option (List ToolCallReq))
    (stop : Nat → Bool) (initial : List ToolCallReq) : Nat :=
  tool_loop_go responses stop 0 initial

/-! ### 9. Terminal blocklist (`mcp_servers/servers/terminal/blocklist.py`)

The dangerous patterns use a small regex fragment: literals, character
classes, `\s`, `.`, `+`/`*` over classes, `\b`, and `$`.  We interpret
that fragment directly; `re.search` semantics is "a match exists starting
at some position".  All patterns are compiled with `re.IGNORECASE`.
`\w` (for `\b`) is modelled on its ASCII fragment, like the string
helpers above. -/

/-- Python `\w` (ASCII fragment): letters, digits, underscore. -/
def isWordChar (c : Char) : Bool := c.isAlphanum || c == '_'

/-- The regex fragment the dangerous patterns need.  `starCls` is `C*`
for a character class `C` (so `C+` is `C ⬝ C*`), keeping the interpreter
structurally recursive. -/
inductive RE where
  | eps
  | cls (p : Char → Bool)
  | seq (a b : RE)
  | starCls (p : Char → Bool)
  | bnd
  | eol

/-- Positions reachable from `(prev, rest)` by consuming zero or more
class characters. -/
def starPositions (p : Char → Bool) :
    Option Char → List Char → List (Option Char × List Char)
  | prev, [] => [(prev, [])]
  | prev, c :: cs =>
    (prev, c :: cs) :: (if p c then starPositions p (some c) cs else [])

/-- Wordness of the character left of the cursor (`none` at the ends). -/
def isWordOpt : Option Char → Bool
  | none => false
  | some c => isWordChar c

/-- `\b`: the cursor sits between a word and a non-word character. -/
def atBoundary (prev : Option Char) (rest : List Char) : Bool :=
  isWordOpt prev != isWordOpt rest.head?

/-- `$` without `re.MULTILINE`: end of string, or before a final newline. -/
def atEol : List Char → Bool
  | [] => true
  | ['\n'] => true
  | _ => false

/-- All `(prev, rest)` positions a match of the expression can end at,
starting from `(prev, rest)`. -/
def reRun : RE → Option Char → List Char → List (Option Char × List Char)
  | .eps, prev, rest => [(prev, rest)]
  | .cls p, _, rest =>
    match rest with
    | [] => []
    | c :: cs => if p c then [(some c, cs)] else []
  | .seq a b, prev, rest =>
    ((reRun a prev rest).map (fun pr => reRun b pr.1 pr.2)).flatten
  | .starCls p, prev, rest => starPositions p prev rest
  | .bnd, prev, rest => if atBoundary prev rest then [(prev, rest)] else []
  | .eol, prev, rest => if atEol rest then [(prev, rest)] else []

/-- Every starting position of `s`, with the preceding character. -/
def allPositions : Option Char → List Char → List (Option Char × List Char)
  | prev, [] => [(prev, [])]
  | prev, c :: cs => (prev, c :: cs) :: allPositions (some c) cs

/-- `re.search(pattern, s)` truthiness. -/
def reSearch (r : RE) (s : List Char) : Bool :=
  (allPositions none s).any (fun pr => !(reRun r pr.1 pr.2).isEmpty)

/-- A literal character under `re.IGNORECASE`. -/
def reLit (c : Char) : RE := .cls (fun x => x.toLower == c.toLower)

/-- A literal string under `re.IGNORECASE`. -/
def reLits (s : String) : RE :=
  s.data.foldr (fun c r => .seq (reLit c) r) .eps

/-- `\s+`. -/
def reWs1 : RE := .seq (.cls pyIsSpace) (.starCls pyIsSpace)

/-- `.*` (no DOTALL: anything but newline). -/
def reDotStar : RE := .starCls (fun c => c != '\n')

/-- `_DANGEROUS_PATTERNS` with their source pattern texts (blocklist.py
lines 70-84), in order. -/
def DANGEROUS_PATTERNS : List (String × RE) :=
  [("\\bformat\\s+[a-zA-Z]:",
    .seq .bnd (.seq (reLits "format")
      (.seq reWs1 (.seq (.cls Char.isAlpha) (reLit ':'))))),
   ("\\bmkfs\\b", .seq .bnd (.seq (reLits "mkfs") .bnd)),
   ("\\bdd\\s+.*of=/dev/",
    .seq .bnd (.seq (reLits "dd") (.seq reWs1
      (.seq reDotStar (reLits "of=/dev/"))))),
   ("\\breg\\s+delete\\s+.*HKLM",
    .seq .bnd (.seq (reLits "reg") (.seq reWs1 (.seq (reLits "delete")
      (.seq reWs1 (.seq reDotStar (reLits "HKLM"))))))),
   ("\\breg\\s+delete\\s+.*HKCU",
    .seq .bnd (.seq (reLits "reg") (.seq reWs1 (.seq (reLits "delete")
      (.seq reWs1 (.seq reDotStar (reLits "HKCU"))))))),
   ("\\brm\\s+-rf\\s+/\\s*$",
    .seq .bnd (.seq (reLits "rm") (.seq reWs1 (.seq (reLits "-rf")
      (.seq reWs1 (.seq (reLit '/') (.seq (.starCls pyIsSpace) .eol))))))),
   ("\\brd\\s+/s\\s+/q\\s+[Cc]:\\\\Windows",
    .seq .bnd (.seq (reLits "rd") (.seq reWs1 (.seq (reLits "/s")
      (.seq reWs1 (.seq (reLits "/q")
        (.seq reWs1 (reLits "c:\\Windows")))))))),
   ("\\bdel\\s+/[fFsS]\\s+[Cc]:\\\\Windows",
    .seq .bnd (.seq (reLits "del") (.seq reWs1 (.seq (reLit '/')
      (.seq (.cls (fun c => c.toLower == 'f' || c.toLower == 's'))
        (.seq reWs1 (reLits "c:\\Windows")))))))]

/-- Substring containment (Python `needle in haystack`, empty needle
contained everywhere). -/
def isPrefixB : List Char → List Char → Bool
  | [], _ => true
  | _ :: _, [] => false
  | n :: ns, h :: hs => n == h && isPrefixB ns hs

/-- `needle in haystack` for Python strings. -/
def substrB (needle : List Char) : List Char → Bool
  | [] => isPrefixB needle []
  | c :: cs => isPrefixB needle (c :: cs) || substrB needle cs

/-- `_get_windows_blocklist`: fixed system paths plus credential paths
derived from `APPDATA`/`LOCALAPPDATA`/`USERPROFILE`, all lower-cased. -/
def get_windows_blocklist (appdata localappdata userprofile : Option String) :
    List String :=
  (["C:\\Windows\\System32", "C:\\Windows\\SysWOW64", "C:\\Windows\\Boot",
    "C:\\pagefile.sys", "C:\\hiberfil.sys"] ++
   (match appdata with
    | some a => [a ++ "\\Microsoft\\Credentials"] | none => []) ++
   (match localappdata with
    | some a => [a ++ "\\Microsoft\\Credentials"] | none => []) ++
   (match userprofile with
    | some u => [u ++ "\\NTUSER.DAT"] | none => [])).map pyLower

/-- `_get_unix_blocklist`: sensitive Unix paths (not lower-cased). -/
def get_unix_blocklist (home : String) (isMac : Bool) : List String :=
  ["/etc/passwd", "/etc/shadow", "/etc/sudoers", "/boot", "/proc/sys",
   home ++ "/.ssh", home ++ "/.aws/credentials", home ++ "/.gnupg",
   "/dev/sd"] ++
  (if isMac then ["/System", "/private/etc"] else [])

/-- `check_blocklist` (blocklist.py lines 87-109).  On Windows the command
is lower-cased before the substring scan; on other systems it is scanned
as-is.  Dangerous patterns always run on the raw command text
(case-insensitively, via the compiled flags). -/
def check_blocklist (isWindows : Bool) (blocklist : List String)
    (command : String) : Bool × String :=
  let cmd_lower := if isWindows then pyLower command else command
  match blocklist.find? (fun p => substrB p.data cmd_lower.data) with
  | some p => (true, "Command touches protected OS path: " ++ p)
  | none =>
    match DANGEROUS_PATTERNS.find? (fun pr => reSearch pr.2 command.data) with
    | some pr => (true, "Command matches dangerous pattern: " ++ pr.1)
    | none => (false, "")

/-- `check_path_injection` (blocklist.py lines 112-129). -/
def check_path_injection (env : Option (List (String × String))) :
    Bool × String :=
  match env with
  | none => (false, "")
  | some e =>
    if e.any (fun kv => kv.1 == "PATH" || kv.1 == "Path" || kv.1 == "path")
    then (true, "PATH override rejected — cannot modify system PATH")
    else (false, "")

/-- How far `TerminalService.execute_command` (terminal.py lines 396-431)
gets before any subprocess exists: bad working directory, blocklist
refusal, or an actual spawn (with the startup-pinned PATH). -/
inductive ExecStart where
  | workdirError (msg : String)
  | blocked (result : String)
  | ptyUnavailable (msg : String)
  | spawn (env_path : String)
deriving DecidableEq, Repr

/-- The pre-spawn phase of `execute_command`: resolve the working
directory, run the blocklist, pin `PATH` to `_ORIGINAL_PATH`. -/
def execute_command_start (isWindows : Bool) (blocklist : List String)
    (workdirExists : Bool) (work_dir original_path : String)
    (command : String) : ExecStart :=
  if !workdirExists then
    .workdirError ("Error: Working directory does not exist: " ++ work_dir)
  else
    let br := check_blocklist isWindows blocklist command
    if br.1 then .blocked ("BLOCKED: " ++ br.2)
    else .spawn original_path

/-- The pre-spawn phase of `execute_command_pty` (terminal.py lines
581-621): the pywinpty import guard comes first, then the same working
directory and blocklist checks. -/
def execute_command_pty_start (ptyAvailable : Bool) (isWindows : Bool)
    (blocklist : List String) (workdirExists : Bool)
    (work_dir original_path : String) (command : String) : ExecStart :=
  if !ptyAvailable then
    .ptyUnavailable
      ("Error: pywinpty is not installed. PTY mode requires pywinpty " ++
       "(pip install pywinpty). Falling back to standard execution.")
  else if !workdirExists then
    .workdirError ("Error: Working directory does not exist: " ++ work_dir)
  else
    let br := check_blocklist isWindows blocklist command
    if br.1 then .blocked ("BLOCKED: " ++ br.2)
    else .spawn original_path

/-! ### 10. Terminal service state (`services/terminal.py`) and the
`stop_streaming` frame handler (`api/handlers.py` lines 73-75)

`asyncio.Event`s are booleans (`is_set`); tasks and processes appear as
liveness flags; killing/terminating/cancelling and broadcasts are emitted
as effects.  `_background_sessions`, `_approval_events`,
`_approval_results`, `_approval_remember` and `_running_commands` are
insertion-ordered dicts. -/

/-- The fields of a `TerminalSession` the session operations consult. -/
structure SessionState where
  request_id : String
  hasProcess : Bool
  alive : Bool
  readerActive : Bool
  readerCancelled : Bool
  text_buffer : List String
  start_time : Nat
  exit_code : Option Int
deriving DecidableEq, Repr

/-- The `TerminalService` state the claims concern. -/
structure TermState where
  approval_events : List (String × Bool)
  approval_results : List (String × Bool)
  approval_remember : List (String × Bool)
  session_mode : Bool
  session_event : Option Bool
  session_result : Option Bool
  active_process : Option Bool
  background_sessions : List (String × SessionState)
deriving DecidableEq, Repr

/-- Process / PTY / websocket side effects the service requests. -/
inductive TermEffect where
  | killActiveProcess
  | cancelReader (session_id : String)
  | terminatePty (session_id : String)
  | ptyWrite (session_id text : String)
  | broadcastOutput (request_id text : String)
  | broadcastComplete (request_id : String) (exit_code : Int)
      (duration_ms : Nat)
deriving DecidableEq, Repr

/-- `TerminalSession.duration_ms` at time `now` (both in ms). -/
def session_duration_ms (now : Nat) (s : SessionState) : Nat :=
  now - s.start_time

/-- Python `l[-n:]`: the last `n` elements for `n > 0`, everything for
`n = 0`. -/
def lastSlice {α : Type} (n : Nat) (l : List α) : List α :=
  if n = 0 then l else l.drop (l.length - n)

/-- `TerminalSession.get_recent_output`: join the ANSI-stripped buffer,
split on newlines, keep the last `lines` lines. -/
def get_recent_output (s : SessionState) (lines : Nat) : String :=
  let full := String.join s.text_buffer
  String.intercalate "\n" (lastSlice lines (full.splitOn "\n"))

/-- `TerminalService.send_input` (terminal.py lines 751-797).  `decode`
stands for the `raw_unicode_escape`/`unicode_escape` codec round-trip. -/
def send_input (decode : String → String) (st : TermState)
    (session_id text : String) (press_enter : Bool) :
    String × TermState × List TermEffect :=
  match dictGet st.background_sessions session_id with
  | none => ("Error: No active session with ID " ++ session_id, st, [])
  | some s =>
    if !s.alive then
      ("Error: Session " ++ session_id ++ " has already exited", st, [])
    else if !s.hasProcess then
      ("Error: Session " ++ session_id ++ " has no active process", st, [])
    else
      let decoded := decode text
      let final :=
        if press_enter && !(decoded.endsWith "\r" || decoded.endsWith "\n")
        then decoded ++ "\r" else decoded
      let status := if s.alive then "running" else "exited"
      ("Input sent. Session is " ++ status ++
         ".\n--- Recent Output ---\n" ++ get_recent_output s 50,
       st, [.ptyWrite session_id final])

/-- `TerminalService.read_output` (terminal.py lines 799-818). -/
def read_output (now : Nat) (st : TermState) (session_id : String)
    (lines : Nat) : String × TermState :=
  match dictGet st.background_sessions session_id with
  | none => ("Error: No active session with ID " ++ session_id, st)
  | some s =>
    let status := if s.alive then "running" else "exited"
    ("[Session " ++ session_id ++ " — " ++ status ++ ", " ++
       toString (session_duration_ms now s / 1000) ++ "s elapsed]\n" ++
       "--- Output (" ++ toString lines ++ " lines) ---\n" ++
       get_recent_output s lines,
     st)

/-- `TerminalService._kill_session` (terminal.py lines 850-885): cancel
the reader, terminate the process, broadcast the reason and completion,
drop the session from the registry. -/
def kill_session (now : Nat) (st : TermState) (session_id reason : String) :
    TermState × List TermEffect :=
  match dictGet st.background_sessions session_id with
  | none => (st, [])
  | some s =>
    let cancelEff := if s.readerActive then [TermEffect.cancelReader session_id]
                     else []
    let (s', termEff) :=
      if s.hasProcess && s.alive then
        ({ s with alive := false, exit_code := some (-1),
                  readerCancelled := s.readerCancelled || s.readerActive },
         [TermEffect.terminatePty session_id])
      else
        ({ s with readerCancelled := s.readerCancelled || s.readerActive },
         [])
    let effs := cancelEff ++ termEff ++
      [TermEffect.broadcastOutput s.request_id
         ("\x1b[31m[" ++ reason ++ "]\x1b[0m"),
       TermEffect.broadcastComplete s.request_id (-1)
         (session_duration_ms now s')]
    ({ st with background_sessions :=
         dictRemove st.background_sessions session_id },
     effs)

/-- `TerminalService.kill_process` (terminal.py lines 820-828). -/
def kill_process (now : Nat) (st : TermState) (session_id : String) :
    String × TermState × List TermEffect :=
  if (dictGet st.background_sessions session_id).isNone then
    ("Error: No active session with ID " ++ session_id, st, [])
  else
    let r := kill_session now st session_id "Process killed by LLM request"
    ("Session " ++ session_id ++ " terminated", r.1, r.2)

/-- `TerminalService.cancel_all_pending` (terminal.py lines 923-957):
deny and release every pending approval, deny a pending session request,
kill the active standard subprocess, cancel every session reader,
terminate every live session process, and clear the session registry. -/
def cancel_all_pending (st : TermState) : TermState × List TermEffect :=
  let results := st.approval_events.foldl
    (fun res pr => dictSet res pr.1 false) st.approval_results
  let events := st.approval_events.map (fun pr => (pr.1, true))
  let (sev, sres) :=
    match st.session_event with
    | some false => (some true, some false)
    | other => (other, st.session_result)
  let killEffs :=
    match st.active_process with
    | some _ => [TermEffect.killActiveProcess]
    | none => []
  let sessEffs := (st.background_sessions.map
    (fun pr =>
      (if pr.2.readerActive then [TermEffect.cancelReader pr.1] else []) ++
      (if pr.2.hasProcess && pr.2.alive then [TermEffect.terminatePty pr.1]
       else []))).flatten
  ({ st with
     approval_events := events,
     approval_results := results,
     session_event := sev,
     session_result := sres,
     active_process := st.active_process.map (fun _ => false),
     background_sessions := [] },
   killEffs ++ sessEffs)

/-- `MessageHandler._handle_stop_streaming` (api/handlers.py lines 73-75):
the whole effect of a `stop_streaming` frame is
`app_state.stop_streaming = True`. -/
def handle_stop_streaming (_stop_streaming_flag : Bool) (term : TermState) :
    Bool × TermState :=
  (true, term)

/-! ## Theorems

Helper lemmas first, then one theorem (plus counterexample/witness where
required) per claim. -/

theorem dictGet_nil {α : Type} (k : String) :
    dictGet ([] : List (String × α)) k = none := rfl

theorem dictGet_cons {α : Type} (p : String × α) (d : List (String × α))
    (k : String) :
    dictGet (p :: d) k = if p.1 == k then some p.2 else dictGet d k := by
  by_cases h : (p.1 == k) = true <;> simp [dictGet, List.find?, h]

theorem dictSet_nil {α : Type} (k : String) (v : α) :
    dictSet [] k v = [(k, v)] := rfl

theorem dictSet_cons {α : Type} (p : String × α) (d : List (String × α))
    (k : String) (v : α) :
    dictSet (p :: d) k v =
      if p.1 == k then (k, v) :: d else p :: dictSet d k v := rfl

theorem dictGet_dictSet_self {α : Type} (d : List (String × α)) (k : String)
    (v : α) : dictGet (dictSet d k v) k = some v := by
  induction d with
  | nil => simp [dictSet_nil, dictGet_cons]
  | cons p rest ih =>
    rw [dictSet_cons]
    by_cases h : (p.1 == k) = true
    · simp [h, dictGet_cons]
    · simp [h, dictGet_cons, ih]

theorem dictGet_dictSet_ne {α : Type} (d : List (String × α)) (k k' : String)
    (v : α) (h : k' ≠ k) : dictGet (dictSet d k v) k' = dictGet d k' := by
  have hk : (k == k') = false := beq_eq_false_iff_ne.mpr (Ne.symm h)
  induction d with
  | nil => simp [dictSet_nil, dictGet_cons, hk]
  | cons p rest ih =>
    rw [dictSet_cons]
    by_cases hp : (p.1 == k) = true
    · have hpk : p.1 = k := eq_of_beq hp
      simp [hp, dictGet_cons, hk, hpk]
    · simp [hp, dictGet_cons, ih]

theorem register_tools_nil (server : String) (st : McpState) :
    register_tools server [] st = st := rfl

theorem register_tools_cons (server : String) (t : ToolDef)
    (ts : List ToolDef) (st : McpState) :
    register_tools server (t :: ts) st =
      register_tools server ts
        { st with
          tool_registry := dictSet st.tool_registry t.name server,
          ollama_tools := st.ollama_tools ++ [t],
          raw_tools := st.raw_tools ++ [t] } := rfl

/-- One entry per reported tool is appended to `_raw_tools`. -/
theorem register_tools_raw (server : String) (ts : List ToolDef)
    (st : McpState) :
    (register_tools server ts st).raw_tools = st.raw_tools ++ ts := by
  induction ts generalizing st with
  | nil => simp [register_tools_nil]
  | cons t rest ih => rw [register_tools_cons, ih]; simp

/-- One entry per reported tool is appended to `_ollama_tools`. -/
theorem register_tools_ollama (server : String) (ts : List ToolDef)
    (st : McpState) :
    (register_tools server ts st).ollama_tools = st.ollama_tools ++ ts := by
  induction ts generalizing st with
  | nil => simp [register_tools_nil]
  | cons t rest ih => rw [register_tools_cons, ih]; simp

/-- Registration never touches registry keys it does not report. -/
theorem register_tools_registry_skip (server : String)
    (ts : List ToolDef) (st : McpState) (n : String)
    (h : n ∉ ts.map ToolDef.name) :
    dictGet (register_tools server ts st).tool_registry n =
      dictGet st.tool_registry n := by
  induction ts generalizing st with
  | nil => rfl
  | cons t rest ih =>
    have hn : n ≠ t.name := by
      intro hc; exact h (by simp [hc])
    have hrest : n ∉ rest.map ToolDef.name := by
      intro hc; exact h (by simp [hc])
    rw [register_tools_cons, ih _ hrest]
    exact dictGet_dictSet_ne _ _ _ _ hn

/-- C2 (amended): the discovery loop of `connect_server` performs no
duplicate check: every reported tool name ends up owned by the connecting
server (overwriting any previous owner), and one entry per reported tool
is appended to each canonical tool list, duplicates included. -/
theorem register_tools_overwrites (st : McpState) (server : String)
    (ts : List ToolDef) (n : String) (hn : n ∈ ts.map ToolDef.name) :
    dictGet (register_tools server ts st).tool_registry n = some server ∧
    (register_tools server ts st).raw_tools = st.raw_tools ++ ts ∧
    (register_tools server ts st).ollama_tools = st.ollama_tools ++ ts := by
  refine ⟨?_, register_tools_raw _ _ _, register_tools_ollama _ _ _⟩
  induction ts generalizing st with
  | nil => simp at hn
  | cons t rest ih =>
    rw [register_tools_cons]
    by_cases hr : n ∈ rest.map ToolDef.name
    · exact ih _ hr
    · have hteq : n = t.name := by
        rcases (by simpa using hn) with h | h
        · exact h
        · exact absurd (by simpa using h) hr
      rw [register_tools_registry_skip _ _ _ _ hr, hteq]
      exact dictGet_dictSet_self _ _ _

/-- The state after server A registers tool `add`. -/
def exampleStA : McpState :=
  connect_server "serverA" [⟨"add", "first registration", "sa"⟩] initMcpState

/-- The state after server B then reports a tool that is also named
`add`. -/
def exampleStB : McpState :=
  connect_server "serverB" [⟨"add", "duplicate registration", "sb"⟩] exampleStA

/-- C2 (counterexample): connecting a second server that reports the
already-registered tool name `add` does not reject the duplicate — the
registry owner flips to the later server and the canonical tool list
changes (a second `add` entry is appended). -/
theorem connect_duplicate_not_rejected :
    ¬ (dictGet exampleStB.tool_registry "add" = some "serverA" ∧
       exampleStB.raw_tools = exampleStA.raw_tools) := by
  decide

/-- C2 (witness): the amended statement instantiated at the duplicate
connect above. -/
theorem register_tools_overwrites_witness :
    dictGet (register_tools "serverB" [⟨"add", "duplicate registration", "sb"⟩]
      exampleStA).tool_registry "add" = some "serverB" :=
  (register_tools_overwrites exampleStA "serverB" _ "add" (by decide)).1

/-- C3 (amended): `call_tool` returns an "unknown tool" string for an
unregistered name and a timeout string when the 180 s ceiling fires, and
concatenates the content blocks on success — but a channel exception is
only caught when it is `asyncio.TimeoutError`; any other exception
escapes `call_tool` and propagates to the caller. -/
theorem call_tool_behavior (st : McpState) (tool_name : String)
    (channel : ChannelOutcome) :
    (dictGet st.tool_registry tool_name = none →
      call_tool st tool_name channel =
        .ok ("Error: Unknown tool '" ++ tool_name ++ "'")) ∧
    (∀ server, dictGet st.tool_registry tool_name = some server →
      call_tool st tool_name .timeout =
        .ok ("Error: Tool '" ++ tool_name ++ "' (server '" ++ server ++
             "') timed out after 180s") ∧
      (∀ exc, call_tool st tool_name (.raised exc) =
        .error exc) ∧
      (∀ blocks, call_tool st tool_name (.success blocks) =
        .ok (if (blocks.map blockText).isEmpty
             then "Tool returned no output."
             else String.intercalate "\n"
               (blocks.map blockText)))) := by
  refine ⟨fun h => ?_, fun server h => ⟨?_, fun exc => ?_, fun blocks => ?_⟩⟩
  all_goals simp_all [call_tool]

/-- C3 (counterexample): a channel error that is not a timeout is not
converted to a result string — the exception escapes `call_tool`
(`Except.error` models the raise), refuting "never raises". -/
theorem call_tool_raises_on_channel_error :
    call_tool (register_tools "srv" [⟨"t", "d", "s"⟩] initMcpState) "t"
      (.raised "RuntimeError: channel closed") =
      .error "RuntimeError: channel closed" := rfl

/-- C3 (witness): the amended statement at concrete inputs — the unknown
name and the timeout both yield `.ok` error strings. -/
theorem call_tool_behavior_witness :
    call_tool initMcpState "nope" .timeout =
      .ok ("Error: Unknown tool '" ++ "nope" ++ "'") ∧
    call_tool (register_tools "srv" [⟨"t", "d", "s"⟩] initMcpState) "t"
      .timeout =
      .ok ("Error: Tool '" ++ "t" ++ "' (server '" ++ "srv" ++
           "') timed out after 180s") :=
  ⟨(call_tool_behavior initMcpState "nope" .timeout).1 (by decide),
   ((call_tool_behavior (register_tools "srv" [⟨"t", "d", "s"⟩] initMcpState)
      "t" .timeout).2 "srv" (by decide)).1⟩

/-- C4: evaluating `retrieve_tools` with the embedding backend disabled
(`_embedding_model_type == "none"`): the semantic-selection branch is
skipped, so only always-on names survive the final filter — the full
tool list is NOT returned (here: an empty list instead of the one
registered tool), contradicting the retriever's own startup message
"Retrieval will return all tools." -/
theorem retrieve_tools_disabled_backend :
    retrieve_tools "none" [] (fun _ _ => 0) [] "divide 20 by 4"
      [⟨"add", "Add two numbers", "sa"⟩] [] 5 = [] ∧
    ([⟨"add", "Add two numbers", "sa"⟩] : List ToolDef) ≠ [] := by
  decide

/-- C5 (counterexample): the truncation of an over-long tool result is
not capped at 100 000 characters — the marker is appended after the
100 000-character cut, so a 100 001-character result becomes 100 036
characters. -/
theorem truncate_result_exceeds_cap :
    ¬ ((truncate_result (List.replicate 100001 'a')).length ≤ 100000) := by
  have hm : TRUNCATION_MARKER.length = 36 := rfl
  have hgt : (List.replicate 100001 'a').length > 100000 := by
    rw [List.length_replicate]; omega
  rw [show truncate_result (List.replicate 100001 'a') =
        (List.replicate 100001 'a').take 100000 ++ TRUNCATION_MARKER from
      if_pos hgt]
  rw [List.length_append, List.length_take, List.length_replicate, hm]
  omega

/-- C5 (amended): a result at most 100 000 characters long is passed
through unchanged; a longer result is truncated to exactly 100 036
characters (100 000 plus the 36-character marker); and the persisted
`full_output` is capped at 50 000 characters. -/
theorem truncate_result_spec (s : List Char) :
    (s.length ≤ 100000 → truncate_result s = s) ∧
    (s.length > 100000 → (truncate_result s).length = 100036) ∧
    (db_output_cap s).length ≤ 50000 := by
  have hm : TRUNCATION_MARKER.length = 36 := rfl
  refine ⟨fun h => ?_, fun h => ?_, ?_⟩
  · simp [truncate_result, Nat.not_lt.mpr h]
  · simp only [truncate_result, if_pos h, List.length_append,
      List.length_take, hm]
    omega
  · simp [db_output_cap]

/-- C5 (witness): the amended statement at a short and an over-long
result. -/
theorem truncate_result_spec_witness :
    truncate_result "ok".data = "ok".data ∧
    (truncate_result (List.replicate 100001 'a')).length = 100036 :=
  ⟨(truncate_result_spec _).1 (by decide),
   (truncate_result_spec _).2.1 (by rw [List.length_replicate]; omega)⟩

theorem tool_loop_go_le (responses : Nat → Option (List ToolCallReq))
    (stop : Nat → Bool) :
    ∀ fuel rounds cur, MAX_MCP_TOOL_ROUNDS - rounds ≤ fuel →
      rounds ≤ MAX_MCP_TOOL_ROUNDS →
      tool_loop_go responses stop rounds cur ≤ MAX_MCP_TOOL_ROUNDS := by
  intro fuel
  induction fuel with
  | zero =>
    intro rounds cur hf hr
    rw [tool_loop_go]
    split
    · next h => exact absurd h.2 (by omega)
    · exact hr
  | succ n ih =>
    intro rounds cur hf hr
    rw [tool_loop_go]
    split
    · next h =>
      cases hstop : stop rounds with
      | true => simpa [hstop] using h.2
      | false =>
        simp only [hstop, Bool.false_eq_true, if_false]
        cases hresp : responses rounds with
        | none => simpa using h.2
        | some next =>
          simp only
          exact ih (rounds + 1) next (by omega) (by omega)
    · exact hr

/-- C6: the per-request tool loop runs at most `MAX_MCP_TOOL_ROUNDS = 30`
rounds on every input (every stream of adapter responses, every
stop-flag schedule), and a detection response without tool calls enters
zero rounds. -/
theorem tool_loop_terminates (responses : Nat → Option (List ToolCallReq))
    (stop : Nat → Bool) (initial : List ToolCallReq) :
    tool_loop_rounds responses stop initial ≤ MAX_MCP_TOOL_ROUNDS ∧
    MAX_MCP_TOOL_ROUNDS = 30 ∧
    (initial = [] → tool_loop_rounds responses stop initial = 0) := by
  refine ⟨?_, rfl, fun h => ?_⟩
  · exact tool_loop_go_le responses stop MAX_MCP_TOOL_ROUNDS 0 initial
      (by omega) (by omega)
  · rw [tool_loop_rounds, tool_loop_go]
    simp [h]

/-- C6 (witness): the statement at a concrete input. -/
theorem tool_loop_terminates_witness :
    tool_loop_rounds (fun _ => none) (fun _ => false) [] = 0 :=
  (tool_loop_terminates (fun _ => none) (fun _ => false) []).2.2 rfl

/-- `remember_approval` on the empty store creates one entry keyed by the
signature hash. -/
theorem remember_approval_empty (c : String) (t : Nat) :
    remember_approval c t [] =
      [{ hash := compute_hash (normalize_command c),
         command_signature := normalize_command c, approved_at := t }] := by
  simp [remember_approval]

/-- C7 (amended): after `remember_approval c`, `is_command_approved c'`
returns true whenever `c'` has the same normalized signature as `c`, and
false whenever the 16-hex-character truncated SHA-256 hashes of the two
signatures differ; the store compares truncated hashes, not signatures,
so distinct signatures with colliding hashes are also reported
approved. -/
theorem remember_then_is_approved (c c' : String) (t : Nat) :
    (normalize_command c = normalize_command c' →
      is_command_approved (remember_approval c t []) c' = true) ∧
    (compute_hash (normalize_command c) ≠ compute_hash (normalize_command c') →
      is_command_approved (remember_approval c t []) c' = false) := by
  constructor
  · intro h
    simp [remember_approval_empty, is_command_approved, h]
  · intro h
    simp [remember_approval_empty, is_command_approved,
      beq_eq_false_iff_ne.mpr h]

set_option maxRecDepth 40000 in
/-- C7 (amended, witness): remembering `npm install express` approves
`npm install left-pad` (same signature `npm install`); remembering
`ls -la` does not approve `pwd` (different hashes). -/
theorem remember_then_is_approved_witness :
    is_command_approved (remember_approval "npm install express" 0 [])
      "npm install left-pad" = true ∧
    is_command_approved (remember_approval "ls -la" 0 []) "pwd" = false :=
  ⟨(remember_then_is_approved "npm install express" "npm install left-pad"
      0).1 (by decide),
   (remember_then_is_approved "ls -la" "pwd" 0).2 (by decide)⟩

set_option maxRecDepth 100000 in
/-- C7 (counterexample): approval matching compares 16-hex-character
truncated SHA-256 hashes, not signatures.  The single-token commands
`fc770099650894c8` and `84d0fe7aa6241897` have different normalized
signatures (the commands themselves) but the same truncated hash
(`84313a9c8251b362`), so remembering the first approves the second —
refuting "returns false when the normalized signatures of c and c'
differ". -/
theorem approval_hash_collision :
    normalize_command "fc770099650894c8" ≠
      normalize_command "84d0fe7aa6241897" ∧
    compute_hash (normalize_command "fc770099650894c8") =
      compute_hash (normalize_command "84d0fe7aa6241897") ∧
    is_command_approved (remember_approval "fc770099650894c8" 0 [])
      "84d0fe7aa6241897" = true := by
  exact ⟨by decide, by decide, by decide⟩

/-- The remembered hash is present after `remember_approval`. -/
theorem remember_approval_mem (c : String) (t : Nat)
    (st : List ApprovalEntry) :
    (remember_approval c t st).any
      (fun a => a.hash == compute_hash (normalize_command c)) = true := by
  rw [remember_approval]
  by_cases h : st.any
      (fun a => a.hash == compute_hash (normalize_command c)) = true
  · simp only [h, if_true]
  · simp [h]

/-- C9: `remember_approval` is idempotent — a second call with the same
command (at any later time) leaves the store unchanged, a call whose
signature hash is already present is a no-op, and the store never
acquires two entries with the same signature hash. -/
theorem remember_approval_idem (c : String) (t1 t2 : Nat)
    (st : List ApprovalEntry) :
    remember_approval c t2 (remember_approval c t1 st) =
      remember_approval c t1 st ∧
    (st.any (fun a => a.hash == compute_hash (normalize_command c)) = true →
      remember_approval c t1 st = st) ∧
    ((st.map ApprovalEntry.hash).Nodup →
      ((remember_approval c t1 st).map ApprovalEntry.hash).Nodup) := by
  refine ⟨?_, fun h => ?_, fun h => ?_⟩
  · conv_lhs => rw [remember_approval]
    simp [remember_approval_mem c t1 st]
  · rw [remember_approval]
    simp [h]
  · rw [remember_approval]
    by_cases hmem : st.any
        (fun a => a.hash == compute_hash (normalize_command c)) = true
    · simpa [hmem] using h
    · have hnot : compute_hash (normalize_command c) ∉
          st.map ApprovalEntry.hash := by
        intro hc
        rcases List.mem_map.mp hc with ⟨a, ha, hahash⟩
        exact hmem (List.any_eq_true.mpr ⟨a, ha, by simp [hahash]⟩)
      simp only [hmem, Bool.false_eq_true, if_false, List.map_append]
      simp only [List.nodup_append, List.map_cons, List.map_nil]
      refine ⟨h, List.nodup_singleton _, ?_⟩
      intro a ha hc
      simp only [List.mem_singleton] at hc
      exact hnot (hc ▸ ha)

/-- C9 (witness): the statement at a concrete store. -/
theorem remember_approval_idem_witness :
    remember_approval "npm install x" 5 (remember_approval "npm install x" 1 [])
      = remember_approval "npm install x" 1 [] ∧
    (((remember_approval "npm install x" 1 []).map ApprovalEntry.hash).Nodup) :=
  ⟨(remember_approval_idem "npm install x" 1 5 []).1,
   (remember_approval_idem "npm install x" 1 0 []).2.2 (by simp)⟩

/-- The empty terminal service state (`TerminalService.__init__`). -/
def initTermState : TermState :=
  { approval_events := [], approval_results := [], approval_remember := [],
    session_mode := false, session_event := none, session_result := none,
    active_process := none, background_sessions := [] }

/-- C10: for a session id absent from the PTY session registry,
`send_input`, `read_output` and `kill_process` each return the
"Error: No active session with ID <id>" string, leave the whole terminal
state (registry included) unchanged, and request no process or PTY
effect. -/
theorem session_ops_missing_id (st : TermState) (session_id : String)
    (decode : String → String) (text : String) (press_enter : Bool)
    (now lines : Nat)
    (h : dictGet st.background_sessions session_id = none) :
    send_input decode st session_id text press_enter =
      ("Error: No active session with ID " ++ session_id, st, []) ∧
    read_output now st session_id lines =
      ("Error: No active session with ID " ++ session_id, st) ∧
    kill_process now st session_id =
      ("Error: No active session with ID " ++ session_id, st, []) := by
  refine ⟨?_, ?_, ?_⟩
  · rw [send_input, h]
  · rw [read_output, h]
  · rw [kill_process]
    simp [h]

/-- C10 (witness): the statement at the empty registry. -/
theorem session_ops_missing_id_witness :
    send_input id initTermState "sess-404" "ls" true =
      ("Error: No active session with ID " ++ "sess-404", initTermState, []) ∧
    kill_process 0 initTermState "sess-404" =
      ("Error: No active session with ID " ++ "sess-404", initTermState, []) :=
  ⟨(session_ops_missing_id initTermState "sess-404" id "ls" true 0 50
      (by decide)).1,
   (session_ops_missing_id initTermState "sess-404" id "ls" true 0 50
      (by decide)).2.2⟩

/-- C8 (counterexample): on a non-Windows OS the blocklist scan is
case-sensitive — `cat /ETC/SHADOW` has a lower-cased text containing the
protected path `/etc/shadow` of the Unix blocklist, yet `check_blocklist`
does not fire and `execute_command` proceeds to spawn the process
instead of returning a `BLOCKED:` string. -/
theorem blocklist_misses_uppercase_path :
    "/etc/shadow" ∈ get_unix_blocklist "/home/user" false ∧
    substrB "/etc/shadow".data (pyLower "cat /ETC/SHADOW").data = true ∧
    execute_command_start false (get_unix_blocklist "/home/user" false) true
      "/tmp" "/usr/bin:/bin" "cat /ETC/SHADOW" = .spawn "/usr/bin:/bin" := by
  refine ⟨by decide, by decide, by decide⟩

/-- C8 (amended): `check_blocklist` fires exactly when the blocklist has
a substring of the command — matched against the lower-cased command on
Windows but against the raw command elsewhere — or a dangerous pattern
matches (case-insensitively); whenever it fires and the working
directory exists (and, for PTY, pywinpty imports), both executors return
the `BLOCKED: <reason>` string without reaching the spawn. -/
theorem find?_some_prop {α : Type} (p : α → Bool) (l : List α) (a : α)
    (h : l.find? p = some a) : a ∈ l ∧ p a = true := by
  induction l with
  | nil => simp [List.find?] at h
  | cons b t ih =>
    by_cases hb : p b = true
    · rw [List.find?_cons_of_pos _ hb] at h
      obtain rfl : b = a := by simpa using h
      exact ⟨List.mem_cons_self _ _, hb⟩
    · rw [List.find?_cons_of_neg _ (by simpa using hb)] at h
      obtain ⟨hm, hp⟩ := ih h
      exact ⟨List.mem_cons_of_mem _ hm, hp⟩

theorem check_blocklist_blocks (isWindows : Bool) (bl : List String)
    (work_dir original_path cmd : String) :
    ((check_blocklist isWindows bl cmd).1 =
      (bl.any (fun p => substrB p.data
          (if isWindows then pyLower cmd else cmd).data) ||
       DANGEROUS_PATTERNS.any (fun pr => reSearch pr.2 cmd.data))) ∧
    ((check_blocklist isWindows bl cmd).1 = true →
      execute_command_start isWindows bl true work_dir original_path cmd =
        .blocked ("BLOCKED: " ++ (check_blocklist isWindows bl cmd).2) ∧
      execute_command_pty_start true isWindows bl true work_dir original_path
          cmd =
        .blocked ("BLOCKED: " ++ (check_blocklist isWindows bl cmd).2)) := by
  constructor
  · cases h1 : bl.find? (fun p => substrB p.data
        (if isWindows then pyLower cmd else cmd).data) with
    | none =>
      cases h2 : DANGEROUS_PATTERNS.find?
          (fun pr => reSearch pr.2 cmd.data) with
      | none =>
        have hb : bl.any (fun p => substrB p.data
            (if isWindows then pyLower cmd else cmd).data) = false := by
          rw [List.any_eq_false]
          intro p hp
          exact (List.find?_eq_none.mp h1) p hp
        have hd : DANGEROUS_PATTERNS.any
            (fun pr => reSearch pr.2 cmd.data) = false := by
          rw [List.any_eq_false]
          intro pr hpr
          exact (List.find?_eq_none.mp h2) pr hpr
        simp [check_blocklist, h1, h2, hb, hd]
      | some pr =>
        have hfp := find?_some_prop _ _ _ h2
        have hd : DANGEROUS_PATTERNS.any
            (fun q => reSearch q.2 cmd.data) = true :=
          List.any_eq_true.mpr ⟨pr, hfp.1, hfp.2⟩
        simp [check_blocklist, h1, h2, hd]
    | some p =>
      have hfp := find?_some_prop _ _ _ h1
      have hb : bl.any (fun q => substrB q.data
          (if isWindows then pyLower cmd else cmd).data) = true :=
        List.any_eq_true.mpr ⟨p, hfp.1, hfp.2⟩
      simp [check_blocklist, h1, hb]
  · intro hfire
    constructor
    · simp [execute_command_start, hfire]
    · simp [execute_command_pty_start, hfire]

/-- C8 (witness): `rm -rf /` trips the dangerous-pattern scan and both
executors refuse it with a `BLOCKED:` string. -/
theorem check_blocklist_blocks_witness :
    execute_command_start false (get_unix_blocklist "/home/user" false) true
      "/tmp" "/usr/bin:/bin" "rm -rf /" =
      .blocked ("BLOCKED: " ++
        (check_blocklist false (get_unix_blocklist "/home/user" false)
          "rm -rf /").2) :=
  ((check_blocklist_blocks false (get_unix_blocklist "/home/user" false)
    "/tmp" "/usr/bin:/bin" "rm -rf /").2 (by decide)).1

/-- A terminal state with one pending approval rendezvous (`req-1`,
event not yet set), a pending session-mode request, a live standard
subprocess and one live PTY session. -/
def pendingTermState : TermState :=
  { approval_events := [("req-1", false)],
    approval_results := [("req-1", false)],
    approval_remember := [("req-1", false)],
    session_mode := false,
    session_event := some false,
    session_result := none,
    active_process := some true,
    background_sessions :=
      [("sess-1",
        { request_id := "req-0", hasProcess := true, alive := true,
          readerActive := true, readerCancelled := false,
          text_buffer := [], start_time := 0, exit_code := none })] }

/-- C1: a `stop_streaming` frame only sets `app_state.stop_streaming`; it
never invokes `TerminalService.cancel_all_pending`, so with an approval
rendezvous pending the handler leaves the terminal state — the pending
approval included — completely untouched.  Had the sweep been invoked (as
`cancel_all_pending`'s own docstring prescribes for stop_streaming), it
would have denied the approval and the session request, killed the
subprocess, cancelled the reader, terminated the PTY and emptied the
registry — and a second sweep from the swept state changes no state. -/
theorem stop_streaming_skips_cancel_sweep :
    (handle_stop_streaming false pendingTermState).1 = true ∧
    (handle_stop_streaming false pendingTermState).2 = pendingTermState ∧
    dictGet (handle_stop_streaming false pendingTermState).2.approval_events
      "req-1" = some false ∧
    (cancel_all_pending pendingTermState).1.approval_events =
      [("req-1", true)] ∧
    dictGet (cancel_all_pending pendingTermState).1.approval_results "req-1" =
      some false ∧
    (cancel_all_pending pendingTermState).1.session_result = some false ∧
    (cancel_all_pending pendingTermState).1.background_sessions = [] ∧
    (cancel_all_pending pendingTermState).2 =
      [TermEffect.killActiveProcess, TermEffect.cancelReader "sess-1",
       TermEffect.terminatePty "sess-1"] ∧
    cancel_all_pending (cancel_all_pending pendingTermState).1 =
      ((cancel_all_pending pendingTermState).1,
       [TermEffect.killActiveProcess]) := by
  decide

end Clueless
